import Mathlib

/-!
Verification development for the Remind-Me contest reminder service.

The definitions below are a shallow embedding of the Python sources:

* `remind/util/website_schema.py` — `WebsitePatterns`, the global `schema` table;
* `remind/util/rounds.py` — `Round`, `Round.is_desired`;
* `remind/cogs/reminders.py` — guild settings, the reminder scheduler
  (`_reschedule_reminder_tasks`, `_send_reminder_at`), the final-call
  subscription manager (`get_finalcall_taskrole`, `on_raw_reaction_remove`),
  the settings commands (`set_remind_settings`, `_set_guild_setting`) and the
  snapshot store (`_serialize_guild_map` / the load in `on_ready`).

Timestamps are modelled as integers (seconds); Python uses floats but no
property at stake depends on sub-second values.  Python dictionaries keyed by
guild id / contest URL are modelled as functions into `Option`, and dictionary
iteration as association lists.
-/

/-- Does the character list `p` start the character list `s`?  Helper for the
Python substring test, written with structural recursion so that concrete
instances evaluate inside the kernel. -/
def charsStartWith : List Char → List Char → Bool
  | [], _ => true
  | _ :: _, [] => false
  | p :: ps, c :: ss => p = c && charsStartWith ps ss

/-- Does the character list `p` occur contiguously inside `s`? -/
def charsContain : List Char → List Char → Bool
  | [], p => p.isEmpty
  | c :: ss, p => charsStartWith p (c :: ss) || charsContain ss p

/-- Python substring test `p in s` (`str.__contains__`): `p` occurs as a
contiguous substring of `s`.  Modelled on the underlying character lists. -/
def occurs_in (p s : String) : Bool :=
  charsContain s.data p.data

/-- Python `str.lower()`, written as a character-by-character case map (every
name and pattern in this development is ASCII, where the two coincide). -/
def py_lower (s : String) : String :=
  ⟨s.data.map Char.toLower⟩

theorem charsStartWith_iff (p s : List Char) : charsStartWith p s = true ↔ p <+: s := by
  induction p generalizing s with
  | nil => simp [charsStartWith]
  | cons a ps ih =>
    cases s with
    | nil => simp [charsStartWith]
    | cons c ss => simp [charsStartWith, List.cons_prefix_cons, ih]

theorem charsContain_iff (s p : List Char) : charsContain s p = true ↔ p <:+: s := by
  induction s with
  | nil => simp [charsContain, List.isEmpty_iff]
  | cons c ss ih => simp [charsContain, List.infix_cons_iff, charsStartWith_iff, ih, or_comm]

/-- `occurs_in` agrees with the mathematical infix relation on the underlying
character lists. -/
theorem occurs_in_iff (p s : String) : occurs_in p s = true ↔ p.data <:+: s.data :=
  charsContain_iff s.data p.data

/-- `WebsitePatterns` record from `remind/util/website_schema.py`.  The
`_normalize_regex` field is omitted: normalization happens while constructing a
`Round` from a raw record, and every `Round` below carries its
already-normalized name. -/
structure WebsitePatterns where
  allowed_patterns : List String
  disallowed_patterns : List String
  shorthands : List String
  prefixStr : String
  rare : Bool
deriving Repr, DecidableEq

/-- Default `WebsitePatterns()` (the `defaultdict` default in the schema and in
guild settings): empty pattern lists, empty shorthands and display name, not
rare. -/
def WebsitePatterns.defaultPatterns : WebsitePatterns :=
  ⟨[], [], [], "", false⟩

/-- The keys explicitly present in the global `schema` dictionary of
`website_schema.py` (membership tests `website in website_schema.schema` use
these). -/
def schemaKeys : List String :=
  ["codeforces.com", "codechef.com", "atcoder.jp",
   "codingcompetitions.withgoogle.com", "usaco.org",
   "facebook.com/hackercup", "leetcode.com"]

/-- The global website policy table `website_schema.schema`: a
`defaultdict(WebsitePatterns)` holding the seven sites of the source file and
the default record for every other key. -/
def schema : String → WebsitePatterns := fun w =>
  if w = "codeforces.com" then
    ⟨[""], ["wild", "fools", "kotlin", "unrated"], ["cf", "codeforces"], "CodeForces", false⟩
  else if w = "codechef.com" then
    ⟨["lunch", "cook", "starters", "rated"], ["unrated", "long"], ["cc", "codechef"], "CodeChef", false⟩
  else if w = "atcoder.jp" then
    ⟨["abc:", "arc:", "agc:", "grand", "beginner", "regular"], [], ["ac", "atcoder"], "AtCoder", false⟩
  else if w = "codingcompetitions.withgoogle.com" then
    ⟨[""], ["registration", "coding practice"], ["google"], "Google", true⟩
  else if w = "usaco.org" then
    ⟨[""], [], ["usaco"], "USACO", true⟩
  else if w = "facebook.com/hackercup" then
    ⟨[""], [], ["hackercup", "fbhc"], "Meta Hackercup", true⟩
  else if w = "leetcode.com" then
    ⟨[""], [], ["leetcode", "lc"], "LeetCode", false⟩
  else WebsitePatterns.defaultPatterns

/-- A contest record (`Round` in `remind/util/rounds.py`).  `name` is the
display name after the schema normalization pass; `start_time` and `duration`
are in seconds. -/
structure Round where
  id : Nat
  start_time : Int
  duration : Int
  url : String
  website : String
  name : String
deriving Repr, DecidableEq

/-- `Round.is_desired(self, websites)` from `rounds.py`: return `False` on the
first disallowed pattern occurring in the lowercased name; otherwise return
`True` on the first allowed pattern occurring in it; otherwise `False`.  The
early-returning loops are rendered with `List.any`. -/
def Round.is_desired (r : Round) (websites : String → WebsitePatterns) : Bool :=
  if (websites r.website).disallowed_patterns.any (fun p => occurs_in p (py_lower r.name)) then
    false
  else
    (websites r.website).allowed_patterns.any (fun p => occurs_in p (py_lower r.name))

theorem occurs_in_empty (s : String) : occurs_in "" s = true := by
  rw [occurs_in_iff]
  exact ⟨[], s.data, by simp⟩

theorem is_desired_eq (r : Round) (websites : String → WebsitePatterns) :
    r.is_desired websites =
      (!(websites r.website).disallowed_patterns.any (fun p => occurs_in p (py_lower r.name)) &&
        (websites r.website).allowed_patterns.any (fun p => occurs_in p (py_lower r.name))) := by
  unfold Round.is_desired
  cases h : (websites r.website).disallowed_patterns.any (fun p => occurs_in p (py_lower r.name)) <;>
    simp

/-- C1: `is_desired` returns `true` iff no disallow-substring of the contest's
website occurs in the normalized lowercase name and at least one
allow-substring occurs in it; the empty allow-substring occurs in every name;
and any disallow hit forces the result to `false` regardless of allow
matches. -/
theorem is_desired_spec (r : Round) (websites : String → WebsitePatterns) :
    (r.is_desired websites = true ↔
      ((∀ p ∈ (websites r.website).disallowed_patterns, occurs_in p (py_lower r.name) = false) ∧
       (∃ p ∈ (websites r.website).allowed_patterns, occurs_in p (py_lower r.name) = true))) ∧
    (∀ s : String, occurs_in "" s = true) ∧
    ((∃ p ∈ (websites r.website).disallowed_patterns, occurs_in p (py_lower r.name) = true) →
      r.is_desired websites = false) := by
  refine ⟨?_, occurs_in_empty, ?_⟩
  · rw [is_desired_eq]
    simp [List.any_eq_true, Bool.not_eq_true]
  · intro ⟨p, hp, hocc⟩
    rw [is_desired_eq]
    have hany : (websites r.website).disallowed_patterns.any
        (fun p => occurs_in p (py_lower r.name)) = true :=
      List.any_eq_true.mpr ⟨p, hp, hocc⟩
    simp [hany]

/-- Per-guild settings (`GuildSettings` recordtype in `reminders.py`).  Fields
default to `none` as in the source; `website_patterns` starts as the global
schema (`get_default_guild_settings`).  The display-only `localtimezone` field
is omitted. -/
structure GuildSettings where
  remind_channel_id : Option Nat
  remind_role_id : Option Nat
  remind_before : Option (List Int)
  finalcall_channel_id : Option Nat
  finalcall_before : Option Int
  website_patterns : String → WebsitePatterns

/-- `get_default_guild_settings()`: default field values with a deep copy of
the global schema as the per-guild policy table. -/
def get_default_guild_settings : GuildSettings :=
  { remind_channel_id := none, remind_role_id := none, remind_before := none,
    finalcall_channel_id := none, finalcall_before := none,
    website_patterns := schema }

/-- A scheduled reminder delivery request (`RemindRequest` in `reminders.py`).
`channel` and `role` hold the result of the platform lookups (which may have
found nothing); `send_time` is the absolute fire time in seconds. -/
structure RemindRequest where
  channel : Option Nat
  role : Option Nat
  contests : List Round
  before_secs : Int
  send_time : Int
deriving Repr, DecidableEq

/-- `Reminders.get_guild_contests`: keep the contests desired under the
guild's policy table. -/
def get_guild_contests (settings : GuildSettings) (contests : List Round) : List Round :=
  contests.filter (fun c => c.is_desired settings.website_patterns)

/-- The inner loop body of `_reschedule_reminder_tasks` for one entry of
`start_time_map`: filter the bucket by the guild policy; if anything remains,
create one task per configured lead-time offset, firing `60 * before_mins`
seconds before the shared start time.  A guild whose reminder role is
configured always has `remind_before` set (both are assigned together by
`set_remind_settings`), so the `getD []` default is never exercised from a
reachable state. -/
def bucket_tasks (settings : GuildSettings) (channel role : Option Nat)
    (start_time : Int) (contests : List Round) : List RemindRequest :=
  let desired := get_guild_contests settings contests
  if desired.isEmpty then []
  else (settings.remind_before.getD []).map
    (fun before_mins =>
      { channel := channel, role := role, contests := desired,
        before_secs := 60 * before_mins, send_time := start_time - 60 * before_mins })

/-- The `for start_time, contests in self.start_time_map.items()` loop of
`_reschedule_reminder_tasks`, accumulating created tasks in order. -/
def schedule_buckets (settings : GuildSettings) (channel role : Option Nat) :
    List (Int × List Round) → List RemindRequest
  | [] => []
  | e :: rest =>
      bucket_tasks settings channel role e.1 e.2 ++ schedule_buckets settings channel role rest

/-- `Reminders._reschedule_reminder_tasks(guild_id)` after the cancel/clear
phase: the list of reminder tasks created for the guild.  `get_channel` and
`get_role` stand for `guild.get_channel` / `guild.get_role`; the function
returns early with no tasks when `start_time_map` is empty or when
`remind_role_id` is `None`. -/
def reschedule_reminder_tasks (settings : GuildSettings)
    (get_channel get_role : Nat → Option Nat)
    (start_time_map : List (Int × List Round)) : List RemindRequest :=
  if start_time_map.isEmpty then []
  else
    match settings.remind_role_id with
    | none => []
    | some role_id =>
        schedule_buckets settings (settings.remind_channel_id.bind get_channel)
          (get_role role_id) start_time_map

/-- Bot-level scheduler state: per-guild settings (`guild_map`), the shared
bucketed future-contest map (`start_time_map`, one entry per distinct start
time) and the per-guild live task lists (`task_map`). -/
structure BotState where
  guild_map : Nat → GuildSettings
  start_time_map : List (Int × List Round)
  task_map : Nat → List RemindRequest

/-- One guild's rebuild (`_reschedule_reminder_tasks`): cancel and clear the
guild's task list, then repopulate it; no other guild's tasks are touched. -/
def rebuild_guild (get_channel get_role : Nat → Option Nat) (guild_id : Nat)
    (st : BotState) : BotState :=
  { st with
    task_map := fun g =>
      if g = guild_id then
        reschedule_reminder_tasks (st.guild_map guild_id) get_channel get_role st.start_time_map
      else st.task_map g }

/-- `_send_reminder_at(request)` as a function of the current clock: compute
`delay = send_time - now`; if `delay <= 0` return without delivering anything;
otherwise (after sleeping `delay`) deliver the notification, summarised here by
its payload `(before_secs, contests)`. -/
def send_reminder_at (request : RemindRequest) (now : Int) : Option (Int × List Round) :=
  let delay := request.send_time - now
  if delay ≤ 0 then none
  else some (request.before_secs, request.contests)

/-- Modelled from the spec: deduplication of a contest list by URL, keeping
the first occurrence of each URL.  The source never deduplicates by URL; this
definition only serves to state the spec's claimed task-count formula. -/
def spec_dedup_by_url (contests : List Round) : List Round :=
  contests.foldl
    (fun acc r => if acc.any (fun x => x.url = r.url) then acc else acc ++ [r]) []

theorem schedule_buckets_length (settings : GuildSettings) (channel role : Option Nat)
    (m : List (Int × List Round)) :
    (schedule_buckets settings channel role m).length =
      (m.filter (fun e => !(get_guild_contests settings e.2).isEmpty)).length *
        (settings.remind_before.getD []).length := by
  induction m with
  | nil => simp [schedule_buckets]
  | cons e rest ih =>
    simp only [schedule_buckets, List.length_append, ih, List.filter_cons]
    cases h : (get_guild_contests settings e.2).isEmpty
    · simp [bucket_tasks, h, Nat.add_mul, Nat.add_comm]
    · simp [bucket_tasks, h]

theorem reschedule_length_eq_of_role (settings : GuildSettings)
    (get_channel get_role : Nat → Option Nat) (start_time_map : List (Int × List Round))
    (role_id : Nat) (h : settings.remind_role_id = some role_id) :
    (reschedule_reminder_tasks settings get_channel get_role start_time_map).length =
      (start_time_map.filter (fun e => !(get_guild_contests settings e.2).isEmpty)).length *
        (settings.remind_before.getD []).length := by
  unfold reschedule_reminder_tasks
  cases hm : start_time_map.isEmpty
  · simp [hm, h, schedule_buckets_length]
  · rw [List.isEmpty_iff] at hm
    subst hm
    simp

/-- Example fixtures: two desired Codeforces contests with distinct URLs that
share a start time, and a guild with channel 11, role 12 and the single
lead-time offset 10 minutes. -/
def exRound1 : Round :=
  ⟨1, 100000, 7200, "https://codeforces.com/contest/1", "codeforces.com", "Codeforces Round 1"⟩

def exRound2 : Round :=
  ⟨2, 100000, 7200, "https://codeforces.com/contest/2", "codeforces.com", "Codeforces Round 2"⟩

def exSettings : GuildSettings :=
  { get_default_guild_settings with
    remind_channel_id := some 11, remind_role_id := some 12, remind_before := some [10] }

def exMap : List (Int × List Round) := [(100000, [exRound1, exRound2])]

def exLookup : Nat → Option Nat := fun i => some i

/-- C2 counterexample: with two desired future contests of distinct URLs
sharing one start time and one lead-time offset, the rebuild creates exactly
one task (one per start-time bucket and offset), every created task's fire
time is still in the future, yet the claimed count — desired contests
deduplicated by URL times distinct offsets minus past tasks — is 2. -/
theorem reschedule_count_counterexample :
    (reschedule_reminder_tasks exSettings exLookup exLookup exMap).length = 1 ∧
    (reschedule_reminder_tasks exSettings exLookup exLookup exMap).all
      (fun req => decide (0 < req.send_time)) = true ∧
    (spec_dedup_by_url (get_guild_contests exSettings [exRound1, exRound2])).length *
      (exSettings.remind_before.getD []).length - 0 = 2 := by
  decide

/-- C2 amended: immediately after `rebuild(C)` the number of reminder tasks
for a community with a configured reminder role equals the number of
start-time buckets containing at least one desired contest multiplied by the
length of the configured lead-time offset list; contests are not deduplicated
by URL (a bucket yields one task no matter how many contests it holds), and
tasks whose fire time is already past are created and counted all the same. -/
theorem reschedule_reminder_tasks_count (settings : GuildSettings)
    (get_channel get_role : Nat → Option Nat) (start_time_map : List (Int × List Round))
    (role_id : Nat) (h : settings.remind_role_id = some role_id) :
    (reschedule_reminder_tasks settings get_channel get_role start_time_map).length =
      (start_time_map.filter (fun e => !(get_guild_contests settings e.2).isEmpty)).length *
        (settings.remind_before.getD []).length :=
  reschedule_length_eq_of_role settings get_channel get_role start_time_map role_id h

theorem reschedule_reminder_tasks_count_witness :
    (reschedule_reminder_tasks exSettings exLookup exLookup exMap).length =
      (exMap.filter (fun e => !(get_guild_contests exSettings e.2).isEmpty)).length *
        (exSettings.remind_before.getD []).length :=
  reschedule_reminder_tasks_count exSettings exLookup exLookup exMap 12 rfl

theorem send_reminder_at_none_iff (request : RemindRequest) (now : Int) :
    send_reminder_at request now = none ↔ request.send_time ≤ now := by
  unfold send_reminder_at
  by_cases h : request.send_time - now ≤ 0
  · simp [h, sub_nonpos.mp h]
  · simp only [h, if_false]
    constructor
    · intro hcontra; cases hcontra
    · intro hle
      exact absurd (sub_nonpos.mpr hle) h

theorem mem_schedule_buckets (settings : GuildSettings) (channel role : Option Nat)
    (m : List (Int × List Round)) (e : Int × List Round) (he : e ∈ m)
    (req : RemindRequest) (hreq : req ∈ bucket_tasks settings channel role e.1 e.2) :
    req ∈ schedule_buckets settings channel role m := by
  induction m with
  | nil => cases he
  | cons a rest ih =>
    rcases List.mem_cons.mp he with h1 | h2
    · subst h1
      exact List.mem_append.mpr (Or.inl hreq)
    · exact List.mem_append.mpr (Or.inr (ih h2))

/-- C3 counterexample: the rebuilt task list for the example guild is exactly
one task firing at time 99400; at clock time 200000 that fire time is already
past, and running the task delivers nothing (`none`) — the notification is
silently skipped, not delivered with zero delay. -/
theorem send_reminder_skips_past_counterexample :
    reschedule_reminder_tasks exSettings exLookup exLookup exMap =
      [{ channel := some 11, role := some 12, contests := [exRound1, exRound2],
         before_secs := 600, send_time := 99400 }] ∧
    ((99400 : Int) < 200000) ∧
    send_reminder_at
      { channel := some 11, role := some 12, contests := [exRound1, exRound2],
        before_secs := 600, send_time := 99400 } 200000 = none := by
  decide

/-- C3 amended: a reminder task whose computed fire time (start time minus
offset) is already in the past is still created by the rebuild — task creation
does not consult the clock — but when the task runs it returns without
delivering anything (`none`) exactly when the fire time is not in the future:
the late notification is silently skipped, not delivered immediately. -/
theorem task_created_but_skipped_when_past (settings : GuildSettings)
    (get_channel get_role : Nat → Option Nat) (start_time_map : List (Int × List Round))
    (role_id : Nat) (h : settings.remind_role_id = some role_id)
    (e : Int × List Round) (he : e ∈ start_time_map)
    (hne : (get_guild_contests settings e.2).isEmpty = false)
    (b : Int) (hb : b ∈ settings.remind_before.getD []) (now : Int) :
    ∃ req ∈ reschedule_reminder_tasks settings get_channel get_role start_time_map,
      req.send_time = e.1 - 60 * b ∧
      (send_reminder_at req now = none ↔ req.send_time ≤ now) := by
  have hmapne : start_time_map.isEmpty = false := by
    cases start_time_map with
    | nil => cases he
    | cons a rest => rfl
  refine ⟨{ channel := settings.remind_channel_id.bind get_channel, role := get_role role_id,
            contests := get_guild_contests settings e.2,
            before_secs := 60 * b, send_time := e.1 - 60 * b }, ?_, rfl, ?_⟩
  · unfold reschedule_reminder_tasks
    rw [hmapne, h]
    simp only [Bool.false_eq_true, if_false]
    refine mem_schedule_buckets settings _ _ start_time_map e he _ ?_
    unfold bucket_tasks
    simp only [hne, Bool.false_eq_true, if_false]
    exact List.mem_map.mpr ⟨b, hb, rfl⟩
  · exact send_reminder_at_none_iff _ now

theorem task_created_but_skipped_when_past_witness :
    ∃ req ∈ reschedule_reminder_tasks exSettings exLookup exLookup exMap,
      req.send_time = 100000 - 60 * 10 ∧
      (send_reminder_at req 200000 = none ↔ req.send_time ≤ 200000) :=
  task_created_but_skipped_when_past exSettings exLookup exLookup exMap 12 rfl
    (100000, [exRound1, exRound2]) (by decide) (by decide) 10 (by decide) 200000

/-- C5 counterexample: the example guild has a configured reminder role id
(12), but both platform lookups report the channel and the role as no longer
existing (`none` for every id); the claim says the rebuild aborts with zero
tasks, yet one task is still created. -/
theorem rebuild_missing_role_counterexample :
    exSettings.remind_role_id = some 12 ∧
    (reschedule_reminder_tasks exSettings (fun _ => none) (fun _ => none) exMap).length ≠ 0 := by
  decide

/-- C5 amended: the rebuild creates zero tasks for a community exactly when no
reminder role id is configured or no future contests exist; the results of the
platform channel/role lookups never change how many tasks are created (a
configured-but-externally-deleted channel or role does not abort the rebuild —
its tasks simply carry a missing channel/role), and rebuilding one community
leaves every other community's task list untouched. -/
theorem rebuild_abort_conditions (st : BotState) (get_channel get_role
    get_channel' get_role' : Nat → Option Nat) (guild_id : Nat) :
    ((st.guild_map guild_id).remind_role_id = none →
      (rebuild_guild get_channel get_role guild_id st).task_map guild_id = []) ∧
    (st.start_time_map = [] →
      (rebuild_guild get_channel get_role guild_id st).task_map guild_id = []) ∧
    ((rebuild_guild get_channel get_role guild_id st).task_map guild_id).length =
      ((rebuild_guild get_channel' get_role' guild_id st).task_map guild_id).length ∧
    (∀ g, g ≠ guild_id →
      (rebuild_guild get_channel get_role guild_id st).task_map g = st.task_map g) := by
  refine ⟨?_, ?_, ?_, ?_⟩
  · intro h
    simp [rebuild_guild, reschedule_reminder_tasks, h]
  · intro h
    simp [rebuild_guild, reschedule_reminder_tasks, h]
  · have hsimp : ∀ (gc gr : Nat → Option Nat),
        (rebuild_guild gc gr guild_id st).task_map guild_id =
          reschedule_reminder_tasks (st.guild_map guild_id) gc gr st.start_time_map := by
      intro gc gr
      simp [rebuild_guild]
    rw [hsimp, hsimp]
    cases h : (st.guild_map guild_id).remind_role_id with
    | none => simp [reschedule_reminder_tasks, h]
    | some role_id =>
        rw [reschedule_length_eq_of_role _ _ _ _ role_id h,
          reschedule_length_eq_of_role _ _ _ _ role_id h]
  · intro g hg
    simp [rebuild_guild, hg]

/-- C7: rebuilding the same community twice in succession, with no change to
the contest cache or the settings in between, produces the identical task
list for that community (hence the same multiset of (contests, offset) pairs
and of fire times); rebuild is idempotent on the whole scheduler state. -/
theorem rebuild_guild_idempotent (st : BotState)
    (get_channel get_role : Nat → Option Nat) (guild_id : Nat) :
    rebuild_guild get_channel get_role guild_id
        (rebuild_guild get_channel get_role guild_id st) =
      rebuild_guild get_channel get_role guild_id st := by
  unfold rebuild_guild
  congr 1
  funext g
  by_cases h : g = guild_id <;> simp [h]

/-- A final-call subscription record (`FinalCallRequest` in `reminders.py`):
the scoped role id, the delivered notice's message id once known, and a
snapshot of the notice content (description and fields). -/
structure FinalCallRequest where
  role_id : Nat
  msg_id : Option Nat
  embed_desc : String
  embed_fields : List (String × String)
deriving Repr, DecidableEq

/-- Per-guild final-call state: the subscription dictionary keyed by contest
URL (`finalcall_map[guild_id]`) and the dictionary of live delivery task ids
(`finaltasks[guild_id]`). -/
structure FCState where
  finalcall_map : String → Option FinalCallRequest
  finaltasks : String → Option Nat

/-- Result of `get_finalcall_taskrole`: the state after the call, the returned
reaction role (if any), and whether a fresh role, subscription and task were
created by this call. -/
structure FCResult where
  state : FCState
  reaction_role : Option Nat
  created : Bool

/-- `Reminders.get_finalcall_taskrole(guild_id, embed, remove)`.  The contest
URL and start time extracted from the notice text by `get_values_from_embed`
are passed in directly (`link`, `start_time`); `get_role` is the platform role
lookup, `fresh_role_id` the id the platform would assign to a newly created
scoped role and `fresh_task_id` the identity of a newly started delivery task.
If a subscription for the link exists its stored role is looked up and
returned; otherwise, unless `remove` is set or the send time has passed, a new
role, subscription and task are created; otherwise nothing happens and no role
is returned.  A guild processing final calls always has `finalcall_before`
set, so the `getD 0` default is never exercised from a reachable state. -/
def get_finalcall_taskrole (st : FCState) (settings : GuildSettings)
    (get_role : Nat → Option Nat) (fresh_role_id fresh_task_id : Nat)
    (embed_desc : String) (embed_fields : List (String × String))
    (link : String) (start_time now : Int) (remove : Bool) : FCResult :=
  let send_time := start_time - (settings.finalcall_before.getD 0) * 60
  match st.finalcall_map link with
  | some req => ⟨st, get_role req.role_id, false⟩
  | none =>
      if ¬remove ∧ now < send_time then
        ⟨⟨fun l => if l = link then
             some ⟨fresh_role_id, none, embed_desc, embed_fields⟩
           else st.finalcall_map l,
          fun l => if l = link then some fresh_task_id else st.finaltasks l⟩,
         some fresh_role_id, true⟩
      else ⟨st, none, false⟩

/-- C4: the final-call subscription table and the task table are maps keyed by
(community, contest URL), so each pair holds at most one live subscription and
one task in every reachable state; concretely, running the opt-in path of
`get_finalcall_taskrole` twice for the same (community, contest) leaves the
state of the first call unchanged, creates no second subscription, role or
task, and returns the already-stored scoped role whenever a subscription
exists after the first call. -/
theorem finalcall_opt_in_idempotent (st : FCState) (settings : GuildSettings)
    (get_role : Nat → Option Nat) (rid1 tid1 rid2 tid2 : Nat)
    (d : String) (f : List (String × String)) (link : String) (start_time now : Int) :
    let r1 := get_finalcall_taskrole st settings get_role rid1 tid1 d f link start_time now false
    let r2 := get_finalcall_taskrole r1.state settings get_role rid2 tid2 d f link
      start_time now false
    r2.state = r1.state ∧ r2.created = false ∧
      (∀ req, r1.state.finalcall_map link = some req →
        r2.reaction_role = get_role req.role_id) := by
  intro r1 r2
  show r2.state = r1.state ∧ r2.created = false ∧ _
  unfold r2 r1
  cases hmap : st.finalcall_map link with
  | some req =>
      simp [get_finalcall_taskrole, hmap]
  | none =>
      by_cases hcond : now < start_time - (settings.finalcall_before.getD 0) * 60
      · simp [get_finalcall_taskrole, hmap, hcond]
      · simp [get_finalcall_taskrole, hmap, hcond]

theorem finalcall_opt_in_idempotent_witness :
    let r1 := get_finalcall_taskrole ⟨fun _ => none, fun _ => none⟩
      { get_default_guild_settings with finalcall_before := some 5 }
      (fun i => some i) 3 4 "d" [] "u" 1000 0 false
    let r2 := get_finalcall_taskrole r1.state
      { get_default_guild_settings with finalcall_before := some 5 }
      (fun i => some i) 8 9 "d" [] "u" 1000 0 false
    r2.state = r1.state ∧ r2.created = false ∧
      (∀ req, r1.state.finalcall_map "u" = some req →
        r2.reaction_role = (fun i => some i) req.role_id) :=
  finalcall_opt_in_idempotent ⟨fun _ => none, fun _ => none⟩
    { get_default_guild_settings with finalcall_before := some 5 }
    (fun i => some i) 3 4 8 9 "d" [] "u" 1000 0

/-- Outcome of one run of the opt-out handler: an early return with nothing
done, a role removal from the member (with or without tearing the
subscription down), or a failure of the handler's `assert` statement. -/
inductive OptOutOutcome
  | noop
  | removedFromMember (role_id : Nat) (torn_down : Bool)
  | assertFailed
deriving Repr, DecidableEq

/-- `Reminders.on_raw_reaction_remove(payload)` after a successful validation
check, with the contest URL and start time already extracted from the notice.
`get_finalcall_taskrole` is called with `remove=True` (never mutating); if it
returns no role the handler asserts that no subscription exists for the link
and returns; otherwise the role is removed from the member and, when the live
reaction count has dropped to zero, the subscription and task are deleted and
the scoped role destroyed. -/
def on_raw_reaction_remove (st : FCState) (settings : GuildSettings)
    (get_role : Nat → Option Nat) (link : String) (start_time now : Int)
    (reaction_count : Nat) : FCState × OptOutOutcome :=
  let res := get_finalcall_taskrole st settings get_role 0 0 "" [] link start_time now true
  match res.reaction_role with
  | none =>
      if (res.state.finalcall_map link).isNone then (res.state, .noop)
      else (res.state, .assertFailed)
  | some role_id =>
      if reaction_count = 0 then
        (if (res.state.finalcall_map link).isSome then
          ⟨fun l => if l = link then none else res.state.finalcall_map l,
           fun l => if l = link then none else res.state.finaltasks l⟩
         else res.state,
         .removedFromMember role_id true)
      else (res.state, .removedFromMember role_id false)

def exFCReq : FinalCallRequest :=
  ⟨5, none, "About to start", []⟩

def exFCState : FCState :=
  ⟨fun l => if l = "https://codeforces.com/contest/1" then some exFCReq else none,
   fun l => if l = "https://codeforces.com/contest/1" then some 7 else none⟩

def exFinalSettings : GuildSettings :=
  { get_default_guild_settings with
    finalcall_channel_id := some 21, finalcall_before := some 5 }

/-- C6 counterexample: in the reachable state where a final-call subscription
for the contest URL still exists but its scoped role has been deleted
externally (the role lookup finds nothing), the opt-out handler does not
no-op: its `assert link not in finalcall_map` fails, raising an error. -/
theorem opt_out_assert_counterexample :
    exFCState.finalcall_map "https://codeforces.com/contest/1" = some exFCReq ∧
    (on_raw_reaction_remove exFCState exFinalSettings (fun _ => none)
      "https://codeforces.com/contest/1" 100000 0 1).2 = .assertFailed := by
  decide

/-- C6 amended: an opt-out whose extracted contest URL has no final-call
subscription is a safe no-op — the state is unchanged and the handler returns
without error; however, in the state where the subscription record still
exists while its scoped role was deleted externally, the handler instead
fails its internal assertion rather than no-opping. -/
theorem opt_out_no_subscription_noop (st : FCState) (settings : GuildSettings)
    (get_role : Nat → Option Nat) (link : String) (start_time now : Int)
    (reaction_count : Nat) (h : st.finalcall_map link = none) :
    on_raw_reaction_remove st settings get_role link start_time now reaction_count =
      (st, OptOutOutcome.noop) := by
  simp [on_raw_reaction_remove, get_finalcall_taskrole, h]

theorem opt_out_no_subscription_noop_witness :
    on_raw_reaction_remove ⟨fun _ => none, fun _ => none⟩ exFinalSettings
        (fun i => some i) "https://codeforces.com/contest/9" 100000 0 0 =
      (⟨fun _ => none, fun _ => none⟩, OptOutOutcome.noop) :=
  opt_out_no_subscription_noop ⟨fun _ => none, fun _ => none⟩ exFinalSettings
    (fun i => some i) "https://codeforces.com/contest/9" 100000 0 0 rfl

/-- The pickled snapshot written by `_serialize_guild_map`: the guild-settings
dictionary and the final-call subscription dictionary, rendered as association
lists. -/
structure PersistedState where
  guild_map : List (Nat × GuildSettings)
  finalcall_map : List (Nat × List (String × FinalCallRequest))

/-- `Reminders._serialize_guild_map`: the snapshot holds exactly the two
in-memory maps. -/
def serialize_guild_map (gm : List (Nat × GuildSettings))
    (fm : List (Nat × List (String × FinalCallRequest))) : PersistedState :=
  ⟨gm, fm⟩

/-- The startup restoration in `Reminders.on_ready`: unpickle the snapshot
file; on success take its final-call map and rebuild each guild's settings
record from the snapshot fields that the current `GuildSettings` schema knows
(the dictionary-comprehension filter over `GuildSettings._fields`, here the
field-by-field reconstruction); any failure to open or unpickle — absent or
corrupt file, modelled by `none` — is swallowed and the maps stay at their
empty defaults. -/
def load (raw : Option PersistedState) : PersistedState :=
  match raw with
  | none => ⟨[], []⟩
  | some d =>
      ⟨d.guild_map.map (fun p =>
          (p.1,
           { remind_channel_id := p.2.remind_channel_id,
             remind_role_id := p.2.remind_role_id,
             remind_before := p.2.remind_before,
             finalcall_channel_id := p.2.finalcall_channel_id,
             finalcall_before := p.2.finalcall_before,
             website_patterns := p.2.website_patterns })),
       d.finalcall_map⟩

/-- C8: loading the snapshot produced by the last successful serialization
returns exactly the serialized (settings-by-community,
final-call-subscription-by-community-by-contest) pair, and loading an absent
or corrupt snapshot yields the empty default state; `load` is total, so
startup never fails because of snapshot corruption. -/
theorem load_spec (gm : List (Nat × GuildSettings))
    (fm : List (Nat × List (String × FinalCallRequest))) :
    load (some (serialize_guild_map gm fm)) = ⟨gm, fm⟩ ∧
    load none = ⟨[], []⟩ := by
  constructor
  · show PersistedState.mk (gm.map (fun p => p)) fm = ⟨gm, fm⟩
    rw [List.map_id']
  · rfl

theorem load_spec_witness :
    load (some (serialize_guild_map [(1, exSettings)] [(1, [("u", exFCReq)])])) =
      ⟨[(1, exSettings)], [(1, [("u", exFCReq)])]⟩ :=
  (load_spec [(1, exSettings)] [(1, [("u", exFCReq)])]).1

/-- `Reminders.set_remind_settings(ctx, role, *before)` (`t;remind here`):
raise unless the role is mentionable; raise unless at least one offset is
given and none is negative; otherwise store the invoking channel, the role
and the offsets sorted in descending order.  `sorted(before, reverse=True)`
on integers is the descending insertion sort (equal integers are identical,
so stability is immaterial).  Raising is modelled by `Except.error`. -/
def set_remind_settings (settings : GuildSettings) (channel_id role_id : Nat)
    (mentionable : Bool) (before : List Int) : Except String GuildSettings :=
  if ¬mentionable then
    .error "The role for reminders must be mentionable"
  else if before.isEmpty || before.any (fun b => b < 0) then
    .error "Please provide valid before values"
  else
    .ok { settings with
          remind_channel_id := some channel_id,
          remind_role_id := some role_id,
          remind_before := some (List.insertionSort (fun a b => a ≥ b) before) }

/-- The observable effect of the command on the guild's stored settings: a
raise surfaces to the command layer and leaves the settings unchanged. -/
def set_remind_settings_run (settings : GuildSettings) (channel_id role_id : Nat)
    (mentionable : Bool) (before : List Int) : GuildSettings :=
  match set_remind_settings settings channel_id role_id mentionable before with
  | .error _ => settings
  | .ok s => s

/-- C9 counterexample: with a mentionable role and the offset list [10, 10],
the command succeeds and stores exactly [10, 10] — a list with a duplicate —
so the stored offsets are not the claimed distinct list. -/
theorem set_remind_settings_duplicate_counterexample :
    set_remind_settings get_default_guild_settings 1 2 true [10, 10] =
      .ok { get_default_guild_settings with
            remind_channel_id := some 1, remind_role_id := some 2,
            remind_before := some [10, 10] } ∧
    ¬ ([10, 10] : List Int).Nodup := by
  constructor
  · rfl
  · decide

/-- C9 amended: if the offset list is empty or contains a negative value, or
the role is not mentionable, the command raises and the community's settings
are left unchanged; otherwise the stored offset list is the given offsets
sorted in descending order — a permutation of the input with duplicates
preserved, not deduplicated. -/
theorem set_remind_settings_spec (settings : GuildSettings) (channel_id role_id : Nat)
    (mentionable : Bool) (before : List Int) :
    ((mentionable = false ∨ before = [] ∨ ∃ b ∈ before, b < 0) →
      (∃ e, set_remind_settings settings channel_id role_id mentionable before =
        .error e) ∧
      set_remind_settings_run settings channel_id role_id mentionable before = settings) ∧
    (mentionable = true → before ≠ [] → (∀ b ∈ before, 0 ≤ b) →
      set_remind_settings settings channel_id role_id mentionable before =
        .ok { settings with
              remind_channel_id := some channel_id,
              remind_role_id := some role_id,
              remind_before := some (List.insertionSort (fun a b => a ≥ b) before) } ∧
      (List.insertionSort (fun a b => a ≥ b) before).Sorted (fun a b => a ≥ b) ∧
      (List.insertionSort (fun a b => a ≥ b) before).Perm before) := by
  constructor
  · intro h
    have herr : ∃ e, set_remind_settings settings channel_id role_id mentionable before =
        .error e := by
      cases mentionable with
      | false =>
          exact ⟨"The role for reminders must be mentionable", by simp [set_remind_settings]⟩
      | true =>
          rcases h with h | h | ⟨b, hb, hneg⟩
          · simp at h
          · exact ⟨"Please provide valid before values", by simp [set_remind_settings, h]⟩
          · have hany : before.any (fun b => decide (b < 0)) = true :=
              List.any_eq_true.mpr ⟨b, hb, by simpa using hneg⟩
            exact ⟨"Please provide valid before values", by simp [set_remind_settings, hany]⟩
    obtain ⟨e, he⟩ := herr
    exact ⟨⟨e, he⟩, by simp [set_remind_settings_run, he]⟩
  · intro hm hne hnn
    have hnotempty : before.isEmpty = false := by
      cases before with
      | nil => exact absurd rfl hne
      | cons a l => rfl
    have hnoneg : before.any (fun b => decide (b < 0)) = false := by
      rw [List.any_eq_false]
      intro b hb
      simpa using not_lt.mpr (hnn b hb)
    refine ⟨by simp [set_remind_settings, hm, hnotempty, hnoneg], ?_, ?_⟩
    · exact List.sorted_insertionSort _ before
    · exact List.perm_insertionSort _ before

theorem set_remind_settings_spec_witness :
    ((false = false ∨ ([-3] : List Int) = [] ∨ ∃ b ∈ ([-3] : List Int), b < 0) →
      (∃ e, set_remind_settings get_default_guild_settings 1 2 false [-3] = .error e) ∧
      set_remind_settings_run get_default_guild_settings 1 2 false [-3] =
        get_default_guild_settings) ∧
    ((false = true → ([-3] : List Int) ≠ [] → (∀ b ∈ ([-3] : List Int), 0 ≤ b) →
      set_remind_settings get_default_guild_settings 1 2 false [-3] =
        .ok { get_default_guild_settings with
              remind_channel_id := some 1, remind_role_id := some 2,
              remind_before := some (List.insertionSort (fun a b => a ≥ b) [-3]) } ∧
      (List.insertionSort (fun a b => a ≥ b) ([-3] : List Int)).Sorted (fun a b => a ≥ b) ∧
      (List.insertionSort (fun a b => a ≥ b) ([-3] : List Int)).Perm [-3])) :=
  set_remind_settings_spec get_default_guild_settings 1 2 false [-3]

/-- The loop body of `Reminders._set_guild_setting`: an unsupported website is
appended to the unsupported list and the settings are untouched; a supported
website has its allow list replaced by `[]` (unsubscribe) or the schema's
allow list, and its disallow list by `[""]` (unsubscribe) or the schema's
disallow list, and is appended to the supported list. -/
def set_guild_setting_step (unsubscribe : Bool)
    (acc : GuildSettings × List String × List String) (w : String) :
    GuildSettings × List String × List String :=
  if w ∉ schemaKeys then (acc.1, acc.2.1, acc.2.2 ++ [w])
  else
    ({ acc.1 with
       website_patterns := fun x =>
         if x = w then
           { acc.1.website_patterns w with
             allowed_patterns :=
               if unsubscribe then [] else (schema w).allowed_patterns,
             disallowed_patterns :=
               if unsubscribe then [""] else (schema w).disallowed_patterns }
         else acc.1.website_patterns x },
     acc.2.1 ++ [w], acc.2.2)

/-- `Reminders._set_guild_setting(guild_id, websites, unsubscribe)`: fold the
loop body over the requested websites, starting from the guild's current
settings and empty supported/unsupported lists. -/
def set_guild_setting (settings : GuildSettings) (websites : List String)
    (unsubscribe : Bool) : GuildSettings × List String × List String :=
  websites.foldl (set_guild_setting_step unsubscribe) (settings, [], [])

theorem set_guild_setting_unsub_aux (w : String) (hw : w ∈ schemaKeys) :
    ∀ (ws : List String) (acc : GuildSettings × List String × List String),
      (w ∈ ws ∨
        ((acc.1.website_patterns w).allowed_patterns = [] ∧
         (acc.1.website_patterns w).disallowed_patterns = [""])) →
      (((ws.foldl (set_guild_setting_step true) acc).1.website_patterns w).allowed_patterns
          = [] ∧
       ((ws.foldl (set_guild_setting_step true) acc).1.website_patterns w).disallowed_patterns
          = [""])
  | [], _, h => by
      rcases h with h | h
      · cases h
      · simpa using h
  | a :: rest, acc, h => by
      rw [List.foldl_cons]
      apply set_guild_setting_unsub_aux w hw rest
      by_cases haw : w = a
      · right
        subst haw
        simp [set_guild_setting_step, hw]
      · rcases h with h | h
        · rcases List.mem_cons.mp h with h1 | h2
          · exact absurd h1 haw
          · exact Or.inl h2
        · right
          unfold set_guild_setting_step
          by_cases hk : a ∈ schemaKeys
          · simp [hk, haw, h]
          · simp [hk, h]

theorem set_guild_setting_unsub_patterns (settings : GuildSettings)
    (websites : List String) (w : String) (hw : w ∈ schemaKeys) (hmem : w ∈ websites) :
    (((set_guild_setting settings websites true).1.website_patterns w).allowed_patterns
        = [] ∧
     ((set_guild_setting settings websites true).1.website_patterns w).disallowed_patterns
        = [""]) :=
  set_guild_setting_unsub_aux w hw websites (settings, [], []) (Or.inl hmem)

/-- C10: after the unsubscribe operation updates a community's policy for a
website known to the schema (allow list `[]`, disallow list `[""]`), every
contest of that website is undesired under the community's policy table: the
empty disallow-substring occurs in every lowercased name and the disallow
pass runs before the allow pass. -/
theorem unsubscribe_never_desired (settings : GuildSettings) (websites : List String)
    (w : String) (hw : w ∈ schemaKeys) (hmem : w ∈ websites) (r : Round)
    (hr : r.website = w) :
    r.is_desired (set_guild_setting settings websites true).1.website_patterns = false := by
  obtain ⟨ha, hd⟩ := set_guild_setting_unsub_patterns settings websites w hw hmem
  rw [is_desired_eq, hr, hd]
  simp [occurs_in_empty]

theorem unsubscribe_never_desired_witness :
    exRound1.is_desired
        (set_guild_setting get_default_guild_settings
          ["codeforces.com"] true).1.website_patterns = false :=
  unsubscribe_never_desired get_default_guild_settings ["codeforces.com"]
    "codeforces.com" (by decide) (by decide) exRound1 rfl

theorem is_desired_spec_witness : occurs_in "" (py_lower exRound1.name) = true :=
  (is_desired_spec exRound1 schema).2.1 (py_lower exRound1.name)

def exBotState : BotState :=
  ⟨fun _ => exSettings, exMap, fun _ => []⟩

theorem rebuild_abort_conditions_witness :
    ((rebuild_guild exLookup exLookup 1 exBotState).task_map 1).length =
      ((rebuild_guild (fun _ => none) (fun _ => none) 1 exBotState).task_map 1).length :=
  (rebuild_abort_conditions exBotState exLookup exLookup
    (fun _ => none) (fun _ => none) 1).2.2.1

theorem rebuild_guild_idempotent_witness :
    rebuild_guild exLookup exLookup 1 (rebuild_guild exLookup exLookup 1 exBotState) =
      rebuild_guild exLookup exLookup 1 exBotState :=
  rebuild_guild_idempotent exBotState exLookup exLookup 1
